import Mathlib

/-!
Shallow embedding of `cmd/main.go` of the gce_metadata_server repository.

The program is a single linear `main`: it reads and parses a config file
into a Claims value, checks that a "default" service account is declared,
resolves credentials through one of four strategies selected by CLI flags
(impersonation, federation, TPM, service-account file), builds a
ServerConfig from the flags, constructs the metadata server, starts it,
blocks on a termination signal, and shuts down.

All external effects (file reads, JSON parsing, the impersonation and
federation credential libraries, the TPM device, the downstream server)
are modelled by an oracle record `Ext` whose fields give the outcome of
each external call; `runMain` is the pure function of the flags and the
oracle that mirrors the control flow of `main`, producing the trace of
observable events, the process exit code, and the failure kind (which
`os.Exit` site fired, named after the spec error taxonomy).
-/

namespace GceMetadata

/-- A service account entry of the Claims config
(`Email`, `Scopes` in `mds.Claims`). -/
structure ServiceAccount where
  email : String
  scopes : List String
deriving DecidableEq

/-- The parsed Claims configuration. The Go value is nested
(`ComputeMetadata.V1.Instance.ServiceAccounts`,
`ComputeMetadata.V1.Project.ProjectID`); the embedding flattens the path
to the two fields `main` reads. The Go map is an association list. -/
structure Claims where
  serviceAccounts : List (String × ServiceAccount)
  projectID : String
deriving DecidableEq

/-- Go map indexing with the zero value: `ServiceAccounts["default"]`
yields the zero `ServiceAccount` when the key is absent. -/
def Claims.defaultSA (c : Claims) : ServiceAccount :=
  (c.serviceAccounts.lookup "default").getD ⟨"", []⟩

/-- A `*google.Credentials` value: `ProjectID` and the raw `JSON` bytes.
The token source itself is opaque and carries no observable data here. -/
structure Credentials where
  projectID : String
  json : String
deriving DecidableEq

/-- A Go `interface\x7b\x7d` value as stored in the generic JSON map: the
nil interface for an absent key, or a dynamically typed value. Two
interface values are equal exactly when their dynamic types and values
agree, so `vnil` and a string are never equal, and a non-string JSON
value is never equal to a string. -/
inductive GoVal where
  | vnil : GoVal
  | vstr : String → GoVal
  | vnum : Int → GoVal
  | vbool : Bool → GoVal
deriving DecidableEq

/-- The CLI flags of `cmd/main.go` (`flag.String` / `flag.Bool` /
`flag.Int` variables), with the values they hold after `flag.Parse`. -/
structure Flags where
  bindInterface : String
  port : String
  useDomainSocket : String
  serviceAccountFile : String
  configFile : String
  useImpersonate : Bool
  useFederate : Bool
  useTPM : Bool
  tpmPath : String
  persistentHandle : Int
deriving DecidableEq

/-- The `mds.ServerConfig` struct literal built in `main`. -/
structure ServerConfig where
  bindInterface : String
  port : String
  impersonate : Bool
  federate : Bool
  domainSocket : String
  useTPM : Bool
  tpmPath : String
  persistentHandle : Int
deriving DecidableEq

/-- Modelled from the spec: the downstream server handle returned by
`create` (`mds.NewMetadataServer`, which lives outside `src/`). Per the
spec boundary contract, the handle's observable bind settings are exactly
the ServerConfig it was constructed from, so the model stores that
config. -/
structure ServerHandle where
  config : ServerConfig
deriving DecidableEq

/-- Modelled from the spec: `create(context, ServerConfig,
ResolvedCredential, Claims) -> ServerHandle | error`. The implementation
`mds.NewMetadataServer` is outside `src/`; the spec says a successful
create yields a handle whose observable bind settings equal the inputs.
Whether create fails is an oracle bit. -/
def createServer (fails : Bool) (cfg : ServerConfig) : Option ServerHandle :=
  if fails then none else some ⟨cfg⟩

/-- The kind of fatal error: one value per `os.Exit` call site of `main`,
named after the spec error taxonomy where the spec names the kind. -/
inductive FailureKind where
  | configReadFailed : FailureKind
  | configParseFailed : FailureKind
  | missingDefaultServiceAccount : FailureKind
  | impersonationSetupFailed : FailureKind
  | missingAmbientCredentialConfig : FailureKind
  | ambientCredentialDiscoveryFailed : FailureKind
  | invalidPersistentHandle : FailureKind
  | deviceOpenFailed : FailureKind
  | deviceCloseFailed : FailureKind
  | fileUnreadable : FailureKind
  | fileParseFailed : FailureKind
  | credJsonUnmarshalFailed : FailureKind
  | createFailed : FailureKind
  | startFailed : FailureKind
  | shutdownFailed : FailureKind
deriving DecidableEq

/-- The four acquisition strategies of the spec. -/
inductive Strategy where
  | impersonation : Strategy
  | federation : Strategy
  | tpm : Strategy
  | serviceAccountFile : Strategy
deriving DecidableEq

/-- The strategy the if/else chain of `main` executes: the first active
flag in the order impersonate, federate, tpm, with the service-account
file as the default branch. -/
def selectStrategy (fl : Flags) : Strategy :=
  if fl.useImpersonate then .impersonation
  else if fl.useFederate then .federation
  else if fl.useTPM then .tpm
  else .serviceAccountFile

/-- Observable events of a run, in program order: the strategy log line,
external interactions, validator warnings, and the lifecycle calls. -/
inductive Event where
  | logStrategy : Strategy → Event
  | credentialDiscovery : Event
  | tpmOpenAttempt : Event
  | warnProjectMismatch : Event
  | warnEmailMismatch : Event
  | callCreate : ServerConfig → Option Credentials → Event
  | callStart : Event
  | signalObserved : Event
  | callShutdown : Event
deriving DecidableEq

/-- The outcome of every external call `main` can make, as an oracle.
Fields that model library calls are functions of the arguments the
source passes. -/
structure Ext where
  readFile : String → Option String
  parseClaims : String → Option Claims
  impersonateTokenSource : String → List String → Option Unit
  googleApplicationCredentials : String
  findDefaultCredentials : List String → Option Credentials
  tpmOpen : String → Option Unit
  tpmClose : Option Unit
  credentialsFromJSON : String → List String → Option Credentials
  unmarshalMap : String → Option (List (String × GoVal))
  createFails : Bool
  startErr : Bool
  shutdownErr : Bool

/-- The credential-resolution section of `main` (the if/else chain on the
strategy flags, lines 59-140): either a fatal error with the events so
far, the exit code and the failure kind, or the events plus the resolved
`creds` pointer. `creds` stays nil (`none`) on the TPM path: that branch
only probes the device and never assigns `creds`. -/
def resolveCreds (fl : Flags) (ext : Ext) (claims : Claims) :
    Except (List Event × Int × FailureKind) (List Event × Option Credentials) :=
  if fl.useImpersonate then
    match ext.impersonateTokenSource claims.defaultSA.email claims.defaultSA.scopes with
    | none => .error ([.logStrategy .impersonation], 1, .impersonationSetupFailed)
    | some _ => .ok ([.logStrategy .impersonation], some ⟨"", ""⟩)
  else if fl.useFederate then
    if ext.googleApplicationCredentials = "" then
      .error ([.logStrategy .federation], 1, .missingAmbientCredentialConfig)
    else
      match ext.findDefaultCredentials claims.defaultSA.scopes with
      | none =>
          .error ([.logStrategy .federation, .credentialDiscovery], 1,
            .ambientCredentialDiscoveryFailed)
      | some c => .ok ([.logStrategy .federation, .credentialDiscovery], some c)
  else if fl.useTPM then
    if fl.persistentHandle = 0 then
      .error ([.logStrategy .tpm], 1, .invalidPersistentHandle)
    else
      match ext.tpmOpen fl.tpmPath with
      | none => .error ([.logStrategy .tpm, .tpmOpenAttempt], 1, .deviceOpenFailed)
      | some _ =>
        match ext.tpmClose with
        | none => .error ([.logStrategy .tpm, .tpmOpenAttempt], 1, .deviceCloseFailed)
        | some _ => .ok ([.logStrategy .tpm, .tpmOpenAttempt], none)
  else
    match ext.readFile fl.serviceAccountFile with
    | none => .error ([.logStrategy .serviceAccountFile], 1, .fileUnreadable)
    | some data =>
      match ext.credentialsFromJSON data claims.defaultSA.scopes with
      | none => .error ([.logStrategy .serviceAccountFile], 1, .fileParseFailed)
      | some creds =>
        match ext.unmarshalMap creds.json with
        | none =>
            .error ([Event.logStrategy .serviceAccountFile] ++
              (if creds.projectID ≠ claims.projectID then [.warnProjectMismatch] else []),
              1, .credJsonUnmarshalFailed)
        | some credJsonMap =>
          .ok ([Event.logStrategy .serviceAccountFile] ++
            (if creds.projectID ≠ claims.projectID then [.warnProjectMismatch] else []) ++
            (if (credJsonMap.lookup "client_email").getD .vnil ≠
                GoVal.vstr claims.defaultSA.email then
              [.warnEmailMismatch]
            else []), some creds)

/-- The ServerConfig literal of `main`, built from the flags. -/
def mkServerConfig (fl : Flags) : ServerConfig :=
  { bindInterface := fl.bindInterface
    port := fl.port
    impersonate := fl.useImpersonate
    federate := fl.useFederate
    domainSocket := fl.useDomainSocket
    useTPM := fl.useTPM
    tpmPath := fl.tpmPath
    persistentHandle := fl.persistentHandle }

/-- The observable outcome of a run of `main`: the ordered event trace,
the process exit code (0 when `main` returns normally), which `os.Exit`
site fired if any, and the server handle when create succeeded. -/
structure RunResult where
  events : List Event
  exitCode : Int
  failure : Option FailureKind
  serverHandle : Option ServerHandle
deriving DecidableEq

/-- `main` of `cmd/main.go` as a pure function of the flags and the
oracle. Mirrors the source order: read config, unmarshal Claims, check
the "default" service account, resolve credentials, build the
ServerConfig, create the server, register the signal channel, start,
block for a signal, shut down. The blocking receive on the signal
channel is modelled as always eventually yielding a termination signal
(`signalObserved`). -/
def runMain (fl : Flags) (ext : Ext) : RunResult :=
  match ext.readFile fl.configFile with
  | none => ⟨[], -1, some .configReadFailed, none⟩
  | some configData =>
    match ext.parseClaims configData with
    | none => ⟨[], -1, some .configParseFailed, none⟩
    | some claims =>
      match claims.serviceAccounts.lookup "default" with
      | none => ⟨[], -1, some .missingDefaultServiceAccount, none⟩
      | some _ =>
        match resolveCreds fl ext claims with
        | .error (evs, code, kind) => ⟨evs, code, some kind, none⟩
        | .ok (evs, creds) =>
          let cfg := mkServerConfig fl
          let evs := evs ++ [.callCreate cfg creds]
          match createServer ext.createFails cfg with
          | none => ⟨evs, 1, some .createFailed, none⟩
          | some handle =>
            let evs := evs ++ [.callStart]
            if ext.startErr then ⟨evs, 1, some .startFailed, some handle⟩
            else
              let evs := evs ++ [.signalObserved, .callShutdown]
              if ext.shutdownErr then ⟨evs, 1, some .shutdownFailed, some handle⟩
              else ⟨evs, 0, none, some handle⟩

/-- Events the resolver section can emit (everything before the
lifecycle calls). -/
def resolverEvent : Event → Bool
  | .logStrategy _ => true
  | .credentialDiscovery => true
  | .tpmOpenAttempt => true
  | .warnProjectMismatch => true
  | .warnEmailMismatch => true
  | _ => false

/-- Recognizes the strategy log line. -/
def isStrategyLog : Event → Bool
  | .logStrategy _ => true
  | _ => false

/-- Recognizes a validator warning. -/
def isWarnEvent : Event → Bool
  | .warnProjectMismatch => true
  | .warnEmailMismatch => true
  | _ => false

/-- Recognizes the create call. -/
def isCreateEvent : Event → Bool
  | .callCreate _ _ => true
  | _ => false

/-- Recognizes a create call that hands over a non-null credential. -/
def isCreateWithCredential : Event → Bool
  | .callCreate _ (some _) => true
  | _ => false

/-- True when no shutdown call occurs before the first observed signal. -/
def shutdownAfterSignal : List Event → Bool
  | [] => true
  | .signalObserved :: _ => true
  | .callShutdown :: _ => false
  | _ :: rest => shutdownAfterSignal rest

/-- Resolver events are none of the lifecycle events. -/
theorem resolverEvent_spec (e : Event) (h : resolverEvent e = true) :
    e ≠ Event.callStart ∧ e ≠ Event.callShutdown ∧ e ≠ Event.signalObserved ∧
    isCreateEvent e = false := by
  cases e <;> simp_all [resolverEvent, isCreateEvent]

/-- A list of resolver events contains no lifecycle event. -/
theorem lifecycle_not_mem_of_all_resolver (l : List Event)
    (h : l.all resolverEvent = true) :
    Event.callStart ∉ l ∧ Event.callShutdown ∉ l ∧ Event.signalObserved ∉ l := by
  refine ⟨fun hm => ?_, fun hm => ?_, fun hm => ?_⟩ <;>
    simpa [resolverEvent] using List.all_eq_true.mp h _ hm

/-- A resolver-event prefix does not affect `shutdownAfterSignal`. -/
theorem shutdownAfterSignal_append (l r : List Event)
    (h : l.all resolverEvent = true) :
    shutdownAfterSignal (l ++ r) = shutdownAfterSignal r := by
  induction l with
  | nil => rfl
  | cons e t ih =>
    rw [List.all_cons, Bool.and_eq_true] at h
    obtain ⟨he, ht⟩ := h
    cases e <;> simp_all [shutdownAfterSignal, resolverEvent]

/-- Facts about every error outcome of the resolver: the code is 1, the
events are resolver events, exactly one strategy is logged, and the
failure kind is never one of the pre-resolution configuration kinds. -/
theorem resolveCreds_error_facts (fl : Flags) (ext : Ext) (c : Claims)
    (evs : List Event) (code : Int) (k : FailureKind)
    (h : resolveCreds fl ext c = .error (evs, code, k)) :
    evs.all resolverEvent = true ∧ code = 1 ∧
    k ≠ FailureKind.configReadFailed ∧ k ≠ FailureKind.configParseFailed ∧
    k ≠ FailureKind.missingDefaultServiceAccount ∧
    evs.filter isStrategyLog = [Event.logStrategy (selectStrategy fl)] := by
  unfold resolveCreds at h
  repeat' split at h
  all_goals try exact Except.noConfusion h
  all_goals try simp only [Except.error.injEq, Prod.mk.injEq] at h
  all_goals obtain ⟨he, hc, hk⟩ := h
  all_goals subst he
  all_goals subst hc
  all_goals subst hk
  all_goals refine ⟨?_, rfl, by decide, by decide, by decide, ?_⟩
  all_goals try simp only [selectStrategy, *]
  all_goals repeat' split
  all_goals try rfl
  all_goals simp_all

/-- Facts about every success outcome of the resolver: the events are
resolver events and exactly one strategy is logged. -/
theorem resolveCreds_ok_facts (fl : Flags) (ext : Ext) (c : Claims)
    (evs : List Event) (creds : Option Credentials)
    (h : resolveCreds fl ext c = .ok (evs, creds)) :
    evs.all resolverEvent = true ∧
    evs.filter isStrategyLog = [Event.logStrategy (selectStrategy fl)] := by
  unfold resolveCreds at h
  repeat' split at h
  all_goals try exact Except.noConfusion h
  all_goals try simp only [Except.ok.injEq, Prod.mk.injEq] at h
  all_goals obtain ⟨he, hcr⟩ := h
  all_goals subst he
  all_goals refine ⟨?_, ?_⟩
  all_goals try simp only [selectStrategy, *]
  all_goals repeat' split
  all_goals try rfl
  all_goals simp_all

/-- Concrete Claims input with a "default" service account. -/
def claimsOk : Claims :=
  { serviceAccounts := [("default", ⟨"svc@proj.iam", ["scope-a"]⟩)]
    projectID := "proj" }

/-- Concrete Claims input without a "default" entry. -/
def claimsNoDefault : Claims :=
  { serviceAccounts := [], projectID := "proj" }

/-- The flag default values of `cmd/main.go`
(0x81008000 = 2164293632). -/
def flagsDefault : Flags :=
  { bindInterface := "127.0.0.1"
    port := ":8080"
    useDomainSocket := ""
    serviceAccountFile := "sa.json"
    configFile := "config.json"
    useImpersonate := false
    useFederate := false
    useTPM := false
    tpmPath := "/dev/tpm0"
    persistentHandle := 2164293632 }

/-- A concrete oracle where every external interaction succeeds and the
key file matches the Claims. -/
def extAllOk : Ext :=
  { readFile := fun p => if p = "config.json" then some "cfgjson" else some "sajson"
    parseClaims := fun _ => some claimsOk
    impersonateTokenSource := fun _ _ => some ()
    googleApplicationCredentials := "adc.json"
    findDefaultCredentials := fun _ => some ⟨"proj", "fedjson"⟩
    tpmOpen := fun _ => some ()
    tpmClose := some ()
    credentialsFromJSON := fun _ _ => some ⟨"proj", "keyjson"⟩
    unmarshalMap := fun _ =>
      some [("client_email", .vstr "svc@proj.iam"), ("project_id", .vstr "proj")]
    createFails := false
    startErr := false
    shutdownErr := false }

/-- Oracle whose config file parses to a Claims with no default entry. -/
def extNoDefault : Ext := { extAllOk with parseClaims := fun _ => some claimsNoDefault }

/-- C7: for every parsed Claims input, the presence of the "default"
service-account entry is checked at startup before any acquisition
strategy runs: when the entry is absent the process exits non-zero,
reporting the missing default account, and the event trace is empty, so
no credential acquisition was ever attempted. -/
theorem default_account_checked_before_acquisition (fl : Flags) (ext : Ext)
    (d : String) (c : Claims)
    (h1 : ext.readFile fl.configFile = some d)
    (h2 : ext.parseClaims d = some c)
    (h3 : c.serviceAccounts.lookup "default" = none) :
    (runMain fl ext).exitCode ≠ 0 ∧
    (runMain fl ext).failure = some FailureKind.missingDefaultServiceAccount ∧
    (runMain fl ext).events = [] := by
  simp [runMain, h1, h2, h3]

/-- Witness for C7 at a concrete input. -/
theorem default_account_checked_before_acquisition_witness :
    (runMain flagsDefault extNoDefault).exitCode ≠ 0 ∧
    (runMain flagsDefault extNoDefault).failure =
      some FailureKind.missingDefaultServiceAccount ∧
    (runMain flagsDefault extNoDefault).events = [] :=
  default_account_checked_before_acquisition flagsDefault extNoDefault
    "cfgjson" claimsNoDefault (by decide) rfl rfl

/-- Flags selecting the TPM strategy with a zero persistent handle. -/
def flagsTpmZero : Flags := { flagsDefault with useTPM := true, persistentHandle := 0 }

/-- C4: with the TPM strategy selected and a zero persistent handle, the
run fails with the invalid-persistent-handle kind and a non-zero exit
code, and neither a device-open attempt nor the start call ever
happens. -/
theorem tpm_zero_handle_fails_before_device_access (fl : Flags) (ext : Ext)
    (d : String) (c : Claims) (sa : ServiceAccount)
    (hImp : fl.useImpersonate = false) (hFed : fl.useFederate = false)
    (hTpm : fl.useTPM = true) (hHandle : fl.persistentHandle = 0)
    (h1 : ext.readFile fl.configFile = some d)
    (h2 : ext.parseClaims d = some c)
    (h3 : c.serviceAccounts.lookup "default" = some sa) :
    (runMain fl ext).exitCode = 1 ∧ (runMain fl ext).exitCode ≠ 0 ∧
    (runMain fl ext).failure = some FailureKind.invalidPersistentHandle ∧
    Event.tpmOpenAttempt ∉ (runMain fl ext).events ∧
    Event.callStart ∉ (runMain fl ext).events := by
  simp [runMain, resolveCreds, h1, h2, h3, hImp, hFed, hTpm, hHandle]

/-- Witness for C4 at a concrete input. -/
theorem tpm_zero_handle_fails_before_device_access_witness :
    (runMain flagsTpmZero extAllOk).exitCode = 1 ∧
    (runMain flagsTpmZero extAllOk).exitCode ≠ 0 ∧
    (runMain flagsTpmZero extAllOk).failure =
      some FailureKind.invalidPersistentHandle ∧
    Event.tpmOpenAttempt ∉ (runMain flagsTpmZero extAllOk).events ∧
    Event.callStart ∉ (runMain flagsTpmZero extAllOk).events :=
  tpm_zero_handle_fails_before_device_access flagsTpmZero extAllOk
    "cfgjson" claimsOk ⟨"svc@proj.iam", ["scope-a"]⟩
    rfl rfl rfl rfl (by decide) rfl (by decide)

/-- Flags selecting the federation strategy. -/
def flagsFederate : Flags := { flagsDefault with useFederate := true }

/-- Oracle with an empty ambient-credential environment variable. -/
def extNoAmbientEnv : Ext := { extAllOk with googleApplicationCredentials := "" }

/-- C6: with the federation strategy selected and an empty
GOOGLE_APPLICATION_CREDENTIALS variable, the run fails fatally with the
missing-ambient-credential-config kind before any credential discovery
is attempted and before start is ever called. -/
theorem federation_empty_env_fails_before_discovery (fl : Flags) (ext : Ext)
    (d : String) (c : Claims) (sa : ServiceAccount)
    (hImp : fl.useImpersonate = false) (hFed : fl.useFederate = true)
    (hEnv : ext.googleApplicationCredentials = "")
    (h1 : ext.readFile fl.configFile = some d)
    (h2 : ext.parseClaims d = some c)
    (h3 : c.serviceAccounts.lookup "default" = some sa) :
    (runMain fl ext).exitCode = 1 ∧ (runMain fl ext).exitCode ≠ 0 ∧
    (runMain fl ext).failure = some FailureKind.missingAmbientCredentialConfig ∧
    Event.credentialDiscovery ∉ (runMain fl ext).events ∧
    Event.callStart ∉ (runMain fl ext).events := by
  simp [runMain, resolveCreds, h1, h2, h3, hImp, hFed, hEnv]

/-- Witness for C6 at a concrete input. -/
theorem federation_empty_env_fails_before_discovery_witness :
    (runMain flagsFederate extNoAmbientEnv).exitCode = 1 ∧
    (runMain flagsFederate extNoAmbientEnv).exitCode ≠ 0 ∧
    (runMain flagsFederate extNoAmbientEnv).failure =
      some FailureKind.missingAmbientCredentialConfig ∧
    Event.credentialDiscovery ∉ (runMain flagsFederate extNoAmbientEnv).events ∧
    Event.callStart ∉ (runMain flagsFederate extNoAmbientEnv).events :=
  federation_empty_env_fails_before_discovery flagsFederate extNoAmbientEnv
    "cfgjson" claimsOk ⟨"svc@proj.iam", ["scope-a"]⟩
    rfl rfl rfl (by decide) rfl (by decide)

/-- Oracle whose config-file read fails. -/
def extConfigReadFail : Ext := { extAllOk with readFile := fun _ => none }

/-- Oracle where starting the server fails. -/
def extStartFail : Ext := { extAllOk with startErr := true }

/-- C2 counterexample: two fatal paths exit with different codes: a
config read failure exits with -1 while a start failure exits with 1,
so the fatal paths do not all share one generic failure code. -/
theorem fatal_exit_codes_differ :
    (runMain flagsDefault extConfigReadFail).failure.isSome = true ∧
    (runMain flagsDefault extStartFail).failure.isSome = true ∧
    (runMain flagsDefault extConfigReadFail).exitCode = -1 ∧
    (runMain flagsDefault extStartFail).exitCode = 1 ∧
    (runMain flagsDefault extConfigReadFail).exitCode ≠
      (runMain flagsDefault extStartFail).exitCode := by
  decide

/-- The exit code of each outcome: 0 on success, -1 for the three
pre-resolution configuration failures (config read, config parse,
missing default account), 1 for every other fatal path. -/
def exitCodeFor : Option FailureKind → Int
  | none => 0
  | some k =>
    if k = FailureKind.configReadFailed ∨ k = FailureKind.configParseFailed ∨
       k = FailureKind.missingDefaultServiceAccount then -1 else 1

/-- C2 amended: the process exits 0 exactly when startup, the signal
wait and shutdown all succeed (no failure; equivalently the shutdown
call happened and succeeded); every fatal path exits non-zero, but not
with a single shared code: config read/parse and missing-default
failures exit with -1 while all later fatal paths exit with 1. -/
theorem exit_code_classification (fl : Flags) (ext : Ext) :
    (runMain fl ext).exitCode = exitCodeFor (runMain fl ext).failure ∧
    ((runMain fl ext).exitCode = 0 ↔ (runMain fl ext).failure = none) ∧
    ((runMain fl ext).exitCode = 0 ↔
      (Event.callShutdown ∈ (runMain fl ext).events ∧ ext.shutdownErr = false)) := by
  rcases hr : ext.readFile fl.configFile with _ | d
  · simp [runMain, hr, exitCodeFor]
  rcases hp : ext.parseClaims d with _ | c
  · simp [runMain, hr, hp, exitCodeFor]
  rcases hl : c.serviceAccounts.lookup "default" with _ | sa
  · simp [runMain, hr, hp, hl, exitCodeFor]
  rcases hres : resolveCreds fl ext c with ⟨⟨evs, code, k⟩⟩ | ⟨⟨evs, creds⟩⟩
  · obtain ⟨hall, hcode, hk1, hk2, hk3, -⟩ :=
      resolveCreds_error_facts fl ext c evs code k hres
    obtain ⟨-, hsd, -⟩ := lifecycle_not_mem_of_all_resolver evs hall
    subst hcode
    simp [runMain, hr, hp, hl, hres, exitCodeFor, hk1, hk2, hk3, hsd]
  · obtain ⟨hall, -⟩ := resolveCreds_ok_facts fl ext c evs creds hres
    obtain ⟨-, hsd, -⟩ := lifecycle_not_mem_of_all_resolver evs hall
    by_cases hcf : ext.createFails
    · simp [runMain, hr, hp, hl, hres, createServer, hcf, exitCodeFor, hsd]
    by_cases hst : ext.startErr
    · simp [runMain, hr, hp, hl, hres, createServer, hcf, hst, exitCodeFor, hsd]
    by_cases hsh : ext.shutdownErr
    · simp [runMain, hr, hp, hl, hres, createServer, hcf, hst, hsh, exitCodeFor, hsd]
    · simp [runMain, hr, hp, hl, hres, createServer, hcf, hst, hsh, exitCodeFor, hsd]

/-- C3: strategy selection follows the strict priority Impersonation >
Federation > TPM > ServiceAccountFile and is evaluated once: whenever
the run reaches the resolver, exactly one strategy log line appears in
the trace, naming the first active flag in priority order; the file
strategy runs exactly when no flag is set; and no other strategy is
ever logged, even when the selected one fails (no fallback). -/
theorem strategy_priority_selected_once (fl : Flags) (ext : Ext)
    (d : String) (c : Claims) (sa : ServiceAccount)
    (h1 : ext.readFile fl.configFile = some d)
    (h2 : ext.parseClaims d = some c)
    (h3 : c.serviceAccounts.lookup "default" = some sa) :
    (runMain fl ext).events.filter isStrategyLog =
      [Event.logStrategy (selectStrategy fl)] ∧
    (selectStrategy fl = Strategy.impersonation ↔ fl.useImpersonate = true) ∧
    (selectStrategy fl = Strategy.federation ↔
      fl.useImpersonate = false ∧ fl.useFederate = true) ∧
    (selectStrategy fl = Strategy.tpm ↔
      fl.useImpersonate = false ∧ fl.useFederate = false ∧ fl.useTPM = true) ∧
    (selectStrategy fl = Strategy.serviceAccountFile ↔
      fl.useImpersonate = false ∧ fl.useFederate = false ∧ fl.useTPM = false) := by
  constructor
  · rcases hres : resolveCreds fl ext c with ⟨⟨evs, code, k⟩⟩ | ⟨⟨evs, creds⟩⟩
    · obtain ⟨-, -, -, -, -, hfil⟩ := resolveCreds_error_facts fl ext c evs code k hres
      simp [runMain, h1, h2, h3, hres, hfil]
    · obtain ⟨-, hfil⟩ := resolveCreds_ok_facts fl ext c evs creds hres
      by_cases hcf : ext.createFails
      · simp [runMain, h1, h2, h3, hres, createServer, hcf, hfil, isStrategyLog]
      by_cases hst : ext.startErr
      · simp [runMain, h1, h2, h3, hres, createServer, hcf, hst, hfil, isStrategyLog]
      by_cases hsh : ext.shutdownErr
      · simp [runMain, h1, h2, h3, hres, createServer, hcf, hst, hsh, hfil, isStrategyLog]
      · simp [runMain, h1, h2, h3, hres, createServer, hcf, hst, hsh, hfil, isStrategyLog]
  · cases hI : fl.useImpersonate <;> cases hF : fl.useFederate <;>
      cases hT : fl.useTPM <;> simp [selectStrategy, hI, hF, hT]

/-- Witness for C3 at a concrete input. -/
theorem strategy_priority_selected_once_witness :
    (runMain flagsDefault extAllOk).events.filter isStrategyLog =
      [Event.logStrategy (selectStrategy flagsDefault)] ∧
    (selectStrategy flagsDefault = Strategy.impersonation ↔
      flagsDefault.useImpersonate = true) ∧
    (selectStrategy flagsDefault = Strategy.federation ↔
      flagsDefault.useImpersonate = false ∧ flagsDefault.useFederate = true) ∧
    (selectStrategy flagsDefault = Strategy.tpm ↔
      flagsDefault.useImpersonate = false ∧ flagsDefault.useFederate = false ∧
      flagsDefault.useTPM = true) ∧
    (selectStrategy flagsDefault = Strategy.serviceAccountFile ↔
      flagsDefault.useImpersonate = false ∧ flagsDefault.useFederate = false ∧
      flagsDefault.useTPM = false) :=
  strategy_priority_selected_once flagsDefault extAllOk
    "cfgjson" claimsOk ⟨"svc@proj.iam", ["scope-a"]⟩ rfl rfl (by decide)

/-- C5: under the ServiceAccountFile strategy, the validator emits the
project warning exactly when the descriptor's project id differs from
the claimed project id, emits the email warning exactly when the parsed
client_email value differs from the claimed default email, and startup
proceeds to the create call in every case — mismatches never exit. -/
theorem validator_warns_iff_mismatch (fl : Flags) (ext : Ext)
    (d : String) (c : Claims) (sa : ServiceAccount) (data : String)
    (creds : Credentials) (m : List (String × GoVal))
    (hImp : fl.useImpersonate = false) (hFed : fl.useFederate = false)
    (hTpm : fl.useTPM = false)
    (h1 : ext.readFile fl.configFile = some d)
    (h2 : ext.parseClaims d = some c)
    (h3 : c.serviceAccounts.lookup "default" = some sa)
    (h4 : ext.readFile fl.serviceAccountFile = some data)
    (h5 : ext.credentialsFromJSON data c.defaultSA.scopes = some creds)
    (h6 : ext.unmarshalMap creds.json = some m) :
    (Event.warnProjectMismatch ∈ (runMain fl ext).events ↔
      creds.projectID ≠ c.projectID) ∧
    (Event.warnEmailMismatch ∈ (runMain fl ext).events ↔
      (m.lookup "client_email").getD GoVal.vnil ≠ GoVal.vstr c.defaultSA.email) ∧
    Event.callCreate (mkServerConfig fl) (some creds) ∈ (runMain fl ext).events := by
  by_cases hp : creds.projectID = c.projectID <;>
    by_cases he :
      (m.lookup "client_email").getD GoVal.vnil = GoVal.vstr c.defaultSA.email <;>
    by_cases hcf : ext.createFails <;>
    by_cases hst : ext.startErr <;>
    by_cases hsh : ext.shutdownErr <;>
    simp [runMain, resolveCreds, createServer, h1, h2, h3, h4, h5, h6,
      hImp, hFed, hTpm, hp, he, hcf, hst, hsh]

/-- Witness for C5 at a concrete input where both comparisons agree. -/
theorem validator_warns_iff_mismatch_witness :
    (Event.warnProjectMismatch ∈ (runMain flagsDefault extAllOk).events ↔
      (⟨"proj", "keyjson"⟩ : Credentials).projectID ≠ claimsOk.projectID) ∧
    (Event.warnEmailMismatch ∈ (runMain flagsDefault extAllOk).events ↔
      (([("client_email", GoVal.vstr "svc@proj.iam"),
         ("project_id", GoVal.vstr "proj")].lookup "client_email").getD GoVal.vnil ≠
        GoVal.vstr claimsOk.defaultSA.email)) ∧
    Event.callCreate (mkServerConfig flagsDefault) (some ⟨"proj", "keyjson"⟩) ∈
      (runMain flagsDefault extAllOk).events :=
  validator_warns_iff_mismatch flagsDefault extAllOk
    "cfgjson" claimsOk ⟨"svc@proj.iam", ["scope-a"]⟩ "sajson"
    ⟨"proj", "keyjson"⟩
    [("client_email", GoVal.vstr "svc@proj.iam"), ("project_id", GoVal.vstr "proj")]
    rfl rfl rfl (by decide) rfl (by decide) (by decide) (by decide) (by decide)

/-- Oracle whose key file parses but whose JSON map has no client_email
key at all. -/
def extNoClientEmail : Ext :=
  { extAllOk with unmarshalMap := fun _ => some [("project_id", .vstr "proj")] }

/-- C10: under the ServiceAccountFile strategy, when the parsed key-file
JSON contains no client_email key, the validator does not fail: the
missing key yields the nil interface value, which is unequal to the
(non-empty) claimed email, so with matching project ids exactly the
email-mismatch warning is emitted and startup proceeds to the create
call. -/
theorem missing_client_email_warns_and_proceeds (fl : Flags) (ext : Ext)
    (d : String) (c : Claims) (sa : ServiceAccount) (data : String)
    (creds : Credentials) (m : List (String × GoVal))
    (hImp : fl.useImpersonate = false) (hFed : fl.useFederate = false)
    (hTpm : fl.useTPM = false)
    (h1 : ext.readFile fl.configFile = some d)
    (h2 : ext.parseClaims d = some c)
    (h3 : c.serviceAccounts.lookup "default" = some sa)
    (h4 : ext.readFile fl.serviceAccountFile = some data)
    (h5 : ext.credentialsFromJSON data c.defaultSA.scopes = some creds)
    (h6 : ext.unmarshalMap creds.json = some m)
    (h7 : m.lookup "client_email" = none)
    (h8 : c.defaultSA.email ≠ "")
    (h9 : creds.projectID = c.projectID) :
    (runMain fl ext).events.filter isWarnEvent = [Event.warnEmailMismatch] ∧
    Event.callCreate (mkServerConfig fl) (some creds) ∈ (runMain fl ext).events ∧
    (runMain fl ext).failure ≠ some FailureKind.fileParseFailed ∧
    (runMain fl ext).failure ≠ some FailureKind.credJsonUnmarshalFailed := by
  by_cases hcf : ext.createFails <;>
    by_cases hst : ext.startErr <;>
    by_cases hsh : ext.shutdownErr <;>
    simp [runMain, resolveCreds, createServer, isWarnEvent, h1, h2, h3, h4, h5,
      h6, h7, h9, hImp, hFed, hTpm, hcf, hst, hsh]

/-- Witness for C10 at a concrete input. -/
theorem missing_client_email_warns_and_proceeds_witness :
    (runMain flagsDefault extNoClientEmail).events.filter isWarnEvent =
      [Event.warnEmailMismatch] ∧
    Event.callCreate (mkServerConfig flagsDefault) (some ⟨"proj", "keyjson"⟩) ∈
      (runMain flagsDefault extNoClientEmail).events ∧
    (runMain flagsDefault extNoClientEmail).failure ≠
      some FailureKind.fileParseFailed ∧
    (runMain flagsDefault extNoClientEmail).failure ≠
      some FailureKind.credJsonUnmarshalFailed :=
  missing_client_email_warns_and_proceeds flagsDefault extNoClientEmail
    "cfgjson" claimsOk ⟨"svc@proj.iam", ["scope-a"]⟩ "sajson"
    ⟨"proj", "keyjson"⟩ [("project_id", GoVal.vstr "proj")]
    rfl rfl rfl (by decide) rfl (by decide) (by decide) (by decide) (by decide)
    (by decide) (by decide) (by decide)

/-- Flags selecting the TPM strategy with the default persistent
handle. -/
def flagsTpm : Flags := { flagsDefault with useTPM := true }

/-- C1 counterexample: a TPM run in which every precondition holds (the
whole process succeeds end to end) hands a nil credential to create: no
create call in the trace carries a non-null credential object. -/
theorem tpm_run_hands_nil_credential :
    (runMain flagsTpm extAllOk).exitCode = 0 ∧
    Event.callCreate (mkServerConfig flagsTpm) none ∈
      (runMain flagsTpm extAllOk).events ∧
    ((runMain flagsTpm extAllOk).events.all fun e => !(isCreateWithCredential e))
      = true := by
  decide

/-- A list of resolver events contains no create call. -/
theorem filter_create_nil_of_all_resolver (l : List Event)
    (h : l.all resolverEvent = true) : l.filter isCreateEvent = [] := by
  induction l with
  | nil => rfl
  | cons e t ih =>
    rw [List.all_cons, Bool.and_eq_true] at h
    cases e <;> simp_all [resolverEvent, isCreateEvent]

/-- The success preconditions of the selected strategy, read off the
source branches: every external call of that branch succeeds (and, for
TPM, the persistent handle is non-zero). -/
def strategyPreconditions (fl : Flags) (ext : Ext) (c : Claims) : Bool :=
  match selectStrategy fl with
  | Strategy.impersonation =>
      (ext.impersonateTokenSource c.defaultSA.email c.defaultSA.scopes).isSome
  | Strategy.federation =>
      if ext.googleApplicationCredentials = "" then false
      else (ext.findDefaultCredentials c.defaultSA.scopes).isSome
  | Strategy.tpm =>
      if fl.persistentHandle = 0 then false
      else (ext.tpmOpen fl.tpmPath).isSome && ext.tpmClose.isSome
  | Strategy.serviceAccountFile =>
      match ext.readFile fl.serviceAccountFile with
      | none => false
      | some data =>
        match ext.credentialsFromJSON data c.defaultSA.scopes with
        | none => false
        | some creds => (ext.unmarshalMap creds.json).isSome

/-- Whether the resolver section of `main` succeeds. -/
def resolverSucceeds (fl : Flags) (ext : Ext) (c : Claims) : Bool :=
  match resolveCreds fl ext c with
  | .ok _ => true
  | .error _ => false

/-- The credential value the resolver hands forward (nil both when the
TPM strategy leaves it unset and when resolution fails). -/
def resolvedCredential (fl : Flags) (ext : Ext) (c : Claims) : Option Credentials :=
  match resolveCreds fl ext c with
  | .ok (_, creds) => creds
  | .error _ => none

/-- When the selected strategy's preconditions hold, the resolver
succeeds and the credential it produces is non-null exactly for the
three non-TPM strategies. -/
theorem resolveCreds_ok_of_preconditions (fl : Flags) (ext : Ext) (c : Claims)
    (h : strategyPreconditions fl ext c = true) :
    resolverSucceeds fl ext c = true ∧
    ((resolvedCredential fl ext c).isSome = true ↔
      selectStrategy fl ≠ Strategy.tpm) := by
  unfold strategyPreconditions at h
  by_cases hI : fl.useImpersonate
  · rcases hts : ext.impersonateTokenSource c.defaultSA.email c.defaultSA.scopes
      with _ | u
    · simp [selectStrategy, hI, hts] at h
    · simp [resolverSucceeds, resolvedCredential, resolveCreds, selectStrategy,
        hI, hts]
  by_cases hF : fl.useFederate
  · by_cases hE : ext.googleApplicationCredentials = ""
    · simp [selectStrategy, hI, hF, hE] at h
    · rcases hfd : ext.findDefaultCredentials c.defaultSA.scopes with _ | cr
      · simp [selectStrategy, hI, hF, hE, hfd] at h
      · simp [resolverSucceeds, resolvedCredential, resolveCreds, selectStrategy,
          hI, hF, hE, hfd]
  by_cases hT : fl.useTPM
  · by_cases hH : fl.persistentHandle = 0
    · simp [selectStrategy, hI, hF, hT, hH] at h
    · rcases hop : ext.tpmOpen fl.tpmPath with _ | u
      · simp [selectStrategy, hI, hF, hT, hH, hop] at h
      · rcases hcl : ext.tpmClose with _ | v
        · simp [selectStrategy, hI, hF, hT, hH, hop, hcl] at h
        · simp [resolverSucceeds, resolvedCredential, resolveCreds, selectStrategy,
            hI, hF, hT, hH, hop, hcl]
  · rcases hrd : ext.readFile fl.serviceAccountFile with _ | data
    · simp [selectStrategy, hI, hF, hT, hrd] at h
    · rcases hcj : ext.credentialsFromJSON data c.defaultSA.scopes with _ | creds
      · simp [selectStrategy, hI, hF, hT, hrd, hcj] at h
      · rcases hum : ext.unmarshalMap creds.json with _ | m
        · simp [selectStrategy, hI, hF, hT, hrd, hcj, hum] at h
        · simp [resolverSucceeds, resolvedCredential, resolveCreds, selectStrategy,
            hI, hF, hT, hrd, hcj, hum]

/-- C1 amended: whenever the configuration phase succeeds and the
selected strategy's preconditions hold, the resolver terminates without
error and exactly one create call occurs, receiving the resolved
credential; that credential is a non-null object for the impersonation,
federation and service-account-file strategies, but is nil for the TPM
strategy (whose token derivation happens downstream in the server). -/
theorem resolver_success_unique_credential (fl : Flags) (ext : Ext)
    (d : String) (c : Claims) (sa : ServiceAccount)
    (h1 : ext.readFile fl.configFile = some d)
    (h2 : ext.parseClaims d = some c)
    (h3 : c.serviceAccounts.lookup "default" = some sa)
    (h4 : strategyPreconditions fl ext c = true) :
    resolverSucceeds fl ext c = true ∧
    Event.callCreate (mkServerConfig fl) (resolvedCredential fl ext c) ∈
      (runMain fl ext).events ∧
    ((runMain fl ext).events.filter isCreateEvent).length = 1 ∧
    ((resolvedCredential fl ext c).isSome = true ↔
      selectStrategy fl ≠ Strategy.tpm) := by
  obtain ⟨hsucc, hiff⟩ := resolveCreds_ok_of_preconditions fl ext c h4
  rcases hres : resolveCreds fl ext c with ⟨⟨evs, code, k⟩⟩ | ⟨⟨evs, creds⟩⟩
  · simp [resolverSucceeds, hres] at hsucc
  obtain ⟨hall, -⟩ := resolveCreds_ok_facts fl ext c evs creds hres
  have hfc := filter_create_nil_of_all_resolver evs hall
  have hcred : resolvedCredential fl ext c = creds := by
    simp [resolvedCredential, hres]
  refine ⟨hsucc, ?_⟩
  rw [hcred] at hiff ⊢
  by_cases hcf : ext.createFails <;> by_cases hst : ext.startErr <;>
    by_cases hsh : ext.shutdownErr <;>
    simp [runMain, h1, h2, h3, hres, createServer, hcf, hst, hsh, hfc,
      isCreateEvent, List.filter_append, hiff]

/-- Flags selecting the impersonation strategy. -/
def flagsImpersonate : Flags := { flagsDefault with useImpersonate := true }

/-- Witness for the amended C1 at a concrete input (impersonation). -/
theorem resolver_success_unique_credential_witness :
    resolverSucceeds flagsImpersonate extAllOk claimsOk = true ∧
    Event.callCreate (mkServerConfig flagsImpersonate)
        (resolvedCredential flagsImpersonate extAllOk claimsOk) ∈
      (runMain flagsImpersonate extAllOk).events ∧
    ((runMain flagsImpersonate extAllOk).events.filter isCreateEvent).length = 1 ∧
    ((resolvedCredential flagsImpersonate extAllOk claimsOk).isSome = true ↔
      selectStrategy flagsImpersonate ≠ Strategy.tpm) :=
  resolver_success_unique_credential flagsImpersonate extAllOk
    "cfgjson" claimsOk ⟨"svc@proj.iam", ["scope-a"]⟩
    (by decide) rfl (by decide) (by decide)

/-- C9: the ServerConfig passed to create carries exactly the CLI-level
settings, unchanged field by field, and the handle produced by the
(spec-modelled) create operation exposes exactly that config, so the
handle's observable bind settings equal the inputs. -/
theorem server_config_roundtrip (fl : Flags) (ext : Ext) (h : ServerHandle)
    (hh : (runMain fl ext).serverHandle = some h) :
    h.config = mkServerConfig fl ∧
    h.config.bindInterface = fl.bindInterface ∧
    h.config.port = fl.port ∧
    h.config.domainSocket = fl.useDomainSocket ∧
    h.config.impersonate = fl.useImpersonate ∧
    h.config.federate = fl.useFederate ∧
    h.config.useTPM = fl.useTPM ∧
    h.config.tpmPath = fl.tpmPath ∧
    h.config.persistentHandle = fl.persistentHandle := by
  have hc : h.config = mkServerConfig fl := by
    rcases hr : ext.readFile fl.configFile with _ | d
    · simp [runMain, hr] at hh
    rcases hp : ext.parseClaims d with _ | c
    · simp [runMain, hr, hp] at hh
    rcases hl : c.serviceAccounts.lookup "default" with _ | sa
    · simp [runMain, hr, hp, hl] at hh
    rcases hres : resolveCreds fl ext c with ⟨⟨evs, code, k⟩⟩ | ⟨⟨evs, creds⟩⟩
    · simp [runMain, hr, hp, hl, hres] at hh
    by_cases hcf : ext.createFails
    · simp [runMain, hr, hp, hl, hres, createServer, hcf] at hh
    by_cases hst : ext.startErr <;> by_cases hsh : ext.shutdownErr <;>
      simp [runMain, hr, hp, hl, hres, createServer, hcf, hst, hsh] at hh <;>
      simp [← hh]
  exact ⟨hc, by simp [hc, mkServerConfig], by simp [hc, mkServerConfig],
    by simp [hc, mkServerConfig], by simp [hc, mkServerConfig],
    by simp [hc, mkServerConfig], by simp [hc, mkServerConfig],
    by simp [hc, mkServerConfig], by simp [hc, mkServerConfig]⟩

/-- Witness for C9 at a concrete input. -/
theorem server_config_roundtrip_witness :
    (⟨mkServerConfig flagsDefault⟩ : ServerHandle).config =
      mkServerConfig flagsDefault ∧
    (⟨mkServerConfig flagsDefault⟩ : ServerHandle).config.bindInterface =
      flagsDefault.bindInterface ∧
    (⟨mkServerConfig flagsDefault⟩ : ServerHandle).config.port =
      flagsDefault.port ∧
    (⟨mkServerConfig flagsDefault⟩ : ServerHandle).config.domainSocket =
      flagsDefault.useDomainSocket ∧
    (⟨mkServerConfig flagsDefault⟩ : ServerHandle).config.impersonate =
      flagsDefault.useImpersonate ∧
    (⟨mkServerConfig flagsDefault⟩ : ServerHandle).config.federate =
      flagsDefault.useFederate ∧
    (⟨mkServerConfig flagsDefault⟩ : ServerHandle).config.useTPM =
      flagsDefault.useTPM ∧
    (⟨mkServerConfig flagsDefault⟩ : ServerHandle).config.tpmPath =
      flagsDefault.tpmPath ∧
    (⟨mkServerConfig flagsDefault⟩ : ServerHandle).config.persistentHandle =
      flagsDefault.persistentHandle :=
  server_config_roundtrip flagsDefault extAllOk
    ⟨mkServerConfig flagsDefault⟩ (by decide)

/-- C8: in every execution, the shutdown call appears in the trace at
most once, never before the termination signal is observed, and it
appears if and only if the start call happened, start succeeded, and a
termination signal was subsequently observed. -/
theorem shutdown_iff_start_succeeded_and_signal (fl : Flags) (ext : Ext) :
    (runMain fl ext).events.count Event.callShutdown ≤ 1 ∧
    shutdownAfterSignal (runMain fl ext).events = true ∧
    (Event.callShutdown ∈ (runMain fl ext).events ↔
      (Event.callStart ∈ (runMain fl ext).events ∧ ext.startErr = false ∧
        Event.signalObserved ∈ (runMain fl ext).events)) := by
  rcases hr : ext.readFile fl.configFile with _ | d
  · simp [runMain, hr, shutdownAfterSignal]
  rcases hp : ext.parseClaims d with _ | c
  · simp [runMain, hr, hp, shutdownAfterSignal]
  rcases hl : c.serviceAccounts.lookup "default" with _ | sa
  · simp [runMain, hr, hp, hl, shutdownAfterSignal]
  rcases hres : resolveCreds fl ext c with ⟨⟨evs, code, k⟩⟩ | ⟨⟨evs, creds⟩⟩
  · obtain ⟨hall, -, -, -, -, -⟩ := resolveCreds_error_facts fl ext c evs code k hres
    obtain ⟨hstm, hsdm, hsgm⟩ := lifecycle_not_mem_of_all_resolver evs hall
    have hsig := shutdownAfterSignal_append evs [] hall
    simp only [List.append_nil] at hsig
    simp [runMain, hr, hp, hl, hres, hstm, hsdm, hsgm, hsig,
      List.count_eq_zero.mpr hsdm, shutdownAfterSignal]
  · obtain ⟨hall, -⟩ := resolveCreds_ok_facts fl ext c evs creds hres
    obtain ⟨hstm, hsdm, hsgm⟩ := lifecycle_not_mem_of_all_resolver evs hall
    have hcnt := List.count_eq_zero.mpr hsdm
    by_cases hcf : ext.createFails <;> by_cases hst : ext.startErr <;>
      by_cases hsh : ext.shutdownErr <;>
      simp [runMain, hr, hp, hl, hres, createServer, hcf, hst, hsh, hstm, hsdm,
        hsgm, hcnt, List.count_append, List.append_assoc,
        shutdownAfterSignal_append _ _ hall, shutdownAfterSignal, List.count_cons]

end GceMetadata
